/-
Verification of the browserbase MCP server (src/puppeteer/index.ts) against its
natural-language specification.

The development shallowly embeds the server: external effects (the remote
browser provider, page actions, the collaboration API) are modelled by a
`World` oracle assigning an `Except String` outcome to every primitive call,
and the mutable module-level state (the session map `browsers`, the append-only
`consoleLogs`, the `screenshots` map, emitted notifications) is threaded as an
explicit `ServerState`.  JavaScript `Map` objects are modelled as association
lists with JS insertion-order update semantics.  A tool call either returns a
result envelope (the `.ok` case, carrying `isError`) or throws (the `.error`
case of the outer `Except`), in which case the state reached so far persists,
matching mutation of JS globals before a rejection.
-/
import Mathlib

/-- Asynchronous events pushed by the server outside the request cycle. -/
inductive Notification where
  | consoleMessage (message : String)
  | resourcesListChanged
deriving DecidableEq, Repr

/-- One content item of a tool result: plain text or an inline image. -/
inductive Content where
  | text (s : String)
  | image (data : String) (mimeType : String)
deriving DecidableEq, Repr

/-- The uniform result envelope every tool call produces. -/
structure CallToolResult where
  content : List Content
  isError : Bool
deriving DecidableEq, Repr

/-- One descriptor in the resource listing. -/
structure ResourceDescriptor where
  uri : String
  mimeType : String
  name : String
deriving DecidableEq, Repr

/-- Content returned by a resource read: text or a base64 blob. -/
inductive ResourceContent where
  | text (uri mimeType text : String)
  | blob (uri mimeType blob : String)
deriving DecidableEq, Repr

/-- A live session: the connection (identified by the order in which it was
opened) together with the page state we track (viewport, current url). -/
structure BrowserSession where
  connId : Nat
  viewport : Option (Nat × Nat) := none
  url : String := ""
deriving DecidableEq, Repr

/-- One item of the bulk parallel-navigation payload. -/
structure SessionSpec where
  url : String
  id : String
deriving DecidableEq, Repr

/-- Per-item outcome of the bulk parallel-navigation tool: the code returns
either an object with a content field or an object with an error field. -/
inductive ItemResult where
  | success (id url content : String)
  | failure (id url errMsg : String)
deriving DecidableEq, Repr

/-- A browser console event as delivered to the subscription installed in
createNewBrowserSession; sessionId is the identifier captured by the closure. -/
structure ConsoleEvent where
  sessionId : Option String
  msgType : String
  text : String
deriving DecidableEq, Repr

/-- The argument payload of a tool call.  The source types it as any; we give
every field the code reads, with absent-field defaults. -/
structure ToolArgs where
  sessionId : Option String := none
  url : String := ""
  name : String := ""
  selector : Option String := none
  width : Option Nat := none
  height : Option Nat := none
  value : String := ""
  script : String := ""
  sessions : List SessionSpec := []
  pageUrl : Option String := none
  pageId : String := ""
  content : String := ""
  comment : String := ""
  databaseId : Option String := none
  title : String := ""
  tags : List String := []
deriving DecidableEq, Repr

/-- A declared tool schema entry (we keep the name and description; the JSON
input schema is static declarative metadata outside the spec scope). -/
structure Tool where
  name : String
  description : String
deriving DecidableEq, Repr

/-- The module-level mutable state of the server. -/
structure ServerState where
  browsers : List (Option String × BrowserSession) := []
  consoleLogs : List String := []
  screenshots : List (String × String) := []
  notifications : List Notification := []
  subs : List (Option String) := []
  connectCount : Nat := 0
deriving DecidableEq, Repr

/-- Oracle for every external call the server makes.  Each field fixes the
outcome of one primitive; connect is indexed by how many connections have been
opened so far. -/
structure World where
  connect : Nat → Except String Unit
  goto : String → Except String Unit
  setViewport : Nat → Nat → Except String Unit
  query : String → Except String Bool
  elementShot : String → Except String String
  pageShot : Except String String
  click : Option String → Except String Unit
  waitForSelector : Option String → Except String Unit
  typeInto : Option String → String → Except String Unit
  evalScript : String → Except String (String × List String)
  getJson : Option String → Except String String
  getContent : Option String → Except String String
  innerText : String → Except String String
  blocksList : String → Except String String
  blocksAppend : String → String → Except String Unit
  commentsList : String → Except String String
  commentsCreate : String → String → Except String Unit
  pagesCreate : String → String → List String → String → Except String String
  envNotionPageUrl : String
  envNotionDatabaseId : String

/-- Lookup in a JS Map modelled as an association list (first match). -/
def mapGet [DecidableEq κ] (m : List (κ × β)) (k : κ) : Option β :=
  match m with
  | [] => none
  | (k', v) :: rest => if k' = k then some v else mapGet rest k

/-- JS Map.set: update in place if the key exists (keeping its position in the
iteration order), otherwise append at the end. -/
def mapSet [DecidableEq κ] (m : List (κ × β)) (k : κ) (v : β) : List (κ × β) :=
  match m with
  | [] => [(k, v)]
  | (k', v') :: rest => if k' = k then (k, v) :: rest else (k', v') :: mapSet rest k v

/-- Mutate the page object of the session stored under sid (pages are shared
by reference in JS, so mutating the resolved page mutates the map entry). -/
def updatePage (st : ServerState) (sid : Option String) (f : BrowserSession → BrowserSession) :
    ServerState :=
  { st with browsers := st.browsers.map (fun p => if p.1 = sid then (p.1, f p.2) else p) }

/-- JS template-literal rendering of a possibly-undefined string value. -/
def jsRenderOpt : Option String → String
  | some s => s
  | none => "undefined"

/-- The formatted console-log line built by the subscription callback. -/
def formatLogEntry (ev : ConsoleEvent) : String :=
  "[Session " ++ jsRenderOpt ev.sessionId ++ "][" ++ ev.msgType ++ "] " ++ ev.text

/-- The subscription callback: append one log entry and synchronously emit one
console-message notification carrying the same line. -/
def deliverConsoleEvent (st : ServerState) (ev : ConsoleEvent) : ServerState :=
  { st with
      consoleLogs := st.consoleLogs ++ [formatLogEntry ev],
      notifications := st.notifications ++ [Notification.consoleMessage (formatLogEntry ev)] }

/-- Deliver a stream of console events in capture order. -/
def processEvents (st : ServerState) (evs : List ConsoleEvent) : ServerState :=
  evs.foldl deliverConsoleEvent st

/-- Remove sep from the front of a list: some remainder when sep is a prefix,
none otherwise. -/
def stripPre (sep : List Char) (l : List Char) : Option (List Char) :=
  match sep with
  | [] => some l
  | a :: as =>
    match l with
    | [] => none
    | b :: bs => if a = b then stripPre as bs else none

/-- The part of a character list before the first occurrence of sep, paired
with the part after it; none when sep does not occur (sep assumed nonempty). -/
def splitFirst (sep : List Char) : List Char → Option (List Char × List Char)
  | [] => none
  | c :: rest =>
    match stripPre sep (c :: rest) with
    | some post => some ([], post)
    | none =>
      match splitFirst sep rest with
      | some (pre, post) => some (c :: pre, post)
      | none => none

/-- Index 1 of the JS String.split(sep) result: the segment between the first
occurrence of sep and the next one (or the end); none when sep never occurs,
matching the undefined element. -/
def jsSplitSecond (sep s : String) : Option String :=
  match splitFirst sep.toList s.toList with
  | none => none
  | some (_, post) =>
    match splitFirst sep.toList post with
    | none => some (String.mk post)
    | some (pre2, _) => some (String.mk pre2)

/-- JS String.startsWith, as a prefix test on the character lists. -/
def strStartsWith (pre s : String) : Bool :=
  (stripPre pre.toList s.toList).isSome

/-- The regex character class of extractNotionPageId. -/
def isAlnum (c : Char) : Bool :=
  c.isAlpha || c.isDigit

/-- Consume exactly n alphanumeric characters, returning them and the rest. -/
def takeAlnum : Nat → List Char → Option (List Char × List Char)
  | 0, cs => some ([], cs)
  | _ + 1, [] => none
  | n + 1, c :: cs =>
    if isAlnum c then
      match takeAlnum n cs with
      | some (blk, rest) => some (c :: blk, rest)
      | none => none
    else none

/-- Consume an optional dash (the -? of the regex; deterministic because the
block characters and the dash are disjoint). -/
def skipDash : List Char → List Char
  | '-' :: cs => cs
  | cs => cs

/-- Match the UUID-shaped regex 8-4-4-4-12 (with each dash optional) at the
head of the list; returns the matched characters with dashes removed, which is
exactly match[0].replace of the source. -/
def matchNotionIdAt (cs : List Char) : Option String :=
  match takeAlnum 8 cs with
  | none => none
  | some (b1, r1) =>
    match takeAlnum 4 (skipDash r1) with
    | none => none
    | some (b2, r2) =>
      match takeAlnum 4 (skipDash r2) with
      | none => none
      | some (b3, r3) =>
        match takeAlnum 4 (skipDash r3) with
        | none => none
        | some (b4, r4) =>
          match takeAlnum 12 (skipDash r4) with
          | none => none
          | some (b5, _) => some (String.mk (b1 ++ b2 ++ b3 ++ b4 ++ b5))

/-- Leftmost match of the UUID-shaped regex in a character list. -/
def findNotionId : List Char → Option String
  | [] => none
  | c :: cs =>
    match matchNotionIdAt (c :: cs) with
    | some s => some s
    | none => findNotionId cs

/-- extractNotionPageId: first regex match with dashes stripped, or a thrown
error when the url contains no match. -/
def extractNotionPageId (url : String) : Except String String :=
  match findNotionId url.toList with
  | some s => Except.ok s
  | none => Except.error "Could not extract page ID from Notion URL"

/-- createNewBrowserSession: connect to the provider, take the first page
handle, install the console subscription, store the pair under sessionId.  A
connection failure is thrown to the caller; on success the connection counter
advances and the subscription list records the captured identifier. -/
def createNewBrowserSession (w : World) (sessionId : Option String) (st : ServerState) :
    Except String BrowserSession × ServerState :=
  match w.connect st.connectCount with
  | Except.error e => (Except.error e, st)
  | Except.ok _ =>
    let sess : BrowserSession := { connId := st.connectCount }
    (Except.ok sess,
     { st with
         browsers := mapSet st.browsers sessionId sess,
         subs := st.subs ++ [sessionId],
         connectCount := st.connectCount + 1 })

/-- The fixed declared tool schema list (names and descriptions as in the
source; the JSON input schemas are static metadata not modelled). -/
def TOOLS : List Tool :=
  [ { name := "puppeteer_create_session",
      description := "Create a new cloud browser session using Browserbase" },
    { name := "puppeteer_navigate",
      description := "Navigate to a URL" },
    { name := "puppeteer_screenshot",
      description := "Take a screenshot of the current page or a specific element" },
    { name := "puppeteer_click",
      description := "Click an element on the page" },
    { name := "puppeteer_fill",
      description := "Fill out an input field" },
    { name := "puppeteer_evaluate",
      description := "Execute JavaScript in the browser console" },
    { name := "puppeteer_get_content",
      description := "Extract all content from the current page" },
    { name := "puppeteer_parallel_sessions",
      description := "Create multiple browser sessions and navigate to different URLs" },
    { name := "notion_read_page",
      description := "Read content from a Notion page" },
    { name := "notion_update_page",
      description := "Update content in a Notion page" },
    { name := "notion_append_content",
      description := "Append content to a Notion page" },
    { name := "notion_read_comments",
      description := "Read comments from a Notion page" },
    { name := "notion_add_comment",
      description := "Add a comment to a Notion page" },
    { name := "notion_add_to_database",
      description := "Add a new entry to a Notion database" } ]

/-- A tool call outcome: a returned envelope or a thrown error, together with
the module state after the call. -/
abbrev ToolOutcome := Except String CallToolResult × ServerState

/-- A single-text result envelope. -/
def textResult (s : String) (isErr : Bool) : CallToolResult :=
  { content := [Content.text s], isError := isErr }

/-- The puppeteer_create_session case: creates a session again (the implicit
default resolution already created one when the id was absent), wrapping a
creation failure into an error envelope. -/
def caseCreateSession (w : World) (args : ToolArgs) (st : ServerState) : ToolOutcome :=
  match createNewBrowserSession w args.sessionId st with
  | (Except.ok _, st') => (Except.ok (textResult "Created new browser session" false), st')
  | (Except.error e, st') =>
    (Except.ok (textResult ("Failed to create browser session: " ++ e) true), st')

/-- The puppeteer_navigate case: page.goto with no try/catch, so a navigation
failure is thrown out of the handler. -/
def caseNavigate (w : World) (args : ToolArgs) (st : ServerState) : ToolOutcome :=
  match w.goto args.url with
  | Except.error e => (Except.error e, st)
  | Except.ok _ =>
    (Except.ok (textResult ("Navigated to " ++ args.url) false),
     updatePage st args.sessionId (fun s => { s with url := args.url }))

/-- The requested viewport width: args.width with the 800 default. -/
def shotWidth (args : ToolArgs) : Nat := args.width.getD 800

/-- The requested viewport height: args.height with the 600 default. -/
def shotHeight (args : ToolArgs) : Nat := args.height.getD 600

/-- The awaited capture value of the screenshot case: the optional-chained
element capture when a selector is given (none models the undefined the
optional chain yields when page.dollar finds no element), the full-page
capture otherwise. -/
def screenshotShot (w : World) (args : ToolArgs) : Except String (Option String) :=
  match args.selector with
  | some sel =>
    match w.query sel with
    | Except.error e => Except.error e
    | Except.ok false => Except.ok none
    | Except.ok true =>
      match w.elementShot sel with
      | Except.error e => Except.error e
      | Except.ok data => Except.ok (some data)
  | none =>
    match w.pageShot with
    | Except.error e => Except.error e
    | Except.ok data => Except.ok (some data)

/-- The envelope text of a falsy capture: selector-dependent, as in the
source ternary. -/
def shotFailText (args : ToolArgs) : String :=
  match args.selector with
  | some sel => "Element not found: " ++ sel
  | none => "Screenshot failed"

/-- The state after page.setViewport succeeded on the resolved page. -/
def shotViewportState (args : ToolArgs) (st : ServerState) : ServerState :=
  updatePage st args.sessionId
    (fun s => { s with viewport := some (shotWidth args, shotHeight args) })

/-- The puppeteer_screenshot case: set the viewport (default 800x600), then
capture the element matched by the selector or the full page; a falsy capture
returns a not-found or failed envelope, otherwise the image is stored under
args.name and a resource-list-changed notification is emitted.  None of this
is inside a try/catch: thrown failures propagate. -/
def caseScreenshot (w : World) (args : ToolArgs) (st : ServerState) : ToolOutcome :=
  match w.setViewport (shotWidth args) (shotHeight args) with
  | Except.error e => (Except.error e, st)
  | Except.ok _ =>
    match screenshotShot w args with
    | Except.error e => (Except.error e, shotViewportState args st)
    | Except.ok none =>
      (Except.ok (textResult (shotFailText args) true), shotViewportState args st)
    | Except.ok (some data) =>
      if data = "" then
        (Except.ok (textResult (shotFailText args) true), shotViewportState args st)
      else
        (Except.ok
          { content :=
              [Content.text ("Screenshot \x27" ++ args.name ++ "\x27 taken at " ++
                 toString (shotWidth args) ++ "x" ++ toString (shotHeight args)),
               Content.image data "image/png"],
            isError := false },
         { shotViewportState args st with
             screenshots := mapSet (shotViewportState args st).screenshots args.name data,
             notifications := (shotViewportState args st).notifications ++
               [Notification.resourcesListChanged] })

/-- The puppeteer_click case (try/catch wrapped). -/
def caseClick (w : World) (args : ToolArgs) (st : ServerState) : ToolOutcome :=
  match w.click args.selector with
  | Except.ok _ =>
    (Except.ok (textResult ("Clicked: " ++ jsRenderOpt args.selector) false), st)
  | Except.error e =>
    (Except.ok (textResult ("Failed to click " ++ jsRenderOpt args.selector ++ ": " ++ e) true),
     st)

/-- The puppeteer_fill case: waitForSelector then type, try/catch wrapped. -/
def caseFill (w : World) (args : ToolArgs) (st : ServerState) : ToolOutcome :=
  match w.waitForSelector args.selector with
  | Except.error e =>
    (Except.ok (textResult ("Failed to fill " ++ jsRenderOpt args.selector ++ ": " ++ e) true),
     st)
  | Except.ok _ =>
    match w.typeInto args.selector args.value with
    | Except.error e =>
      (Except.ok
        (textResult ("Failed to fill " ++ jsRenderOpt args.selector ++ ": " ++ e) true), st)
    | Except.ok _ =>
      (Except.ok
        (textResult ("Filled " ++ jsRenderOpt args.selector ++ " with: " ++ args.value) false),
       st)

/-- The puppeteer_evaluate case: run the script in the page with intercepted
console output, try/catch wrapped. -/
def caseEvaluate (w : World) (args : ToolArgs) (st : ServerState) : ToolOutcome :=
  match w.evalScript args.script with
  | Except.error e => (Except.ok (textResult ("Script execution failed: " ++ e) true), st)
  | Except.ok (res, logs) =>
    (Except.ok (textResult
      ("Execution result:\n" ++ res ++ "\n\nConsole output:\n" ++
       String.intercalate "\n" logs) false), st)

/-- The puppeteer_get_json case: scan the page for brace-balanced JSON,
try/catch wrapped; the scan itself is abstracted into the oracle. -/
def caseGetJson (w : World) (args : ToolArgs) (st : ServerState) : ToolOutcome :=
  match w.getJson args.selector with
  | Except.error e => (Except.ok (textResult ("Failed to extract JSON: " ++ e) true), st)
  | Except.ok json => (Except.ok (textResult ("Found JSON content:\n" ++ json) false), st)

/-- The puppeteer_get_content case: text content of matched elements (or the
whole document), try/catch wrapped. -/
def caseGetContent (w : World) (args : ToolArgs) (st : ServerState) : ToolOutcome :=
  match w.getContent args.selector with
  | Except.error e => (Except.ok (textResult ("Failed to extract content: " ++ e) true), st)
  | Except.ok c => (Except.ok (textResult ("Extracted content:\n" ++ c) false), st)

/-- One item of the bulk tool: create a fresh session for the item id, then
navigate and extract body text inside the per-item try/catch.  A session
creation failure rejects the item promise (and hence Promise.all). -/
def runParallelItem (w : World) (st : ServerState) (item : SessionSpec) :
    Except String ItemResult × ServerState :=
  match createNewBrowserSession w (some item.id) st with
  | (Except.error e, st1) => (Except.error e, st1)
  | (Except.ok _, st1) =>
    match w.goto item.url with
    | Except.error e => (Except.ok (ItemResult.failure item.id item.url e), st1)
    | Except.ok _ =>
      let st2 := updatePage st1 (some item.id) (fun s => { s with url := item.url })
      match w.innerText item.url with
      | Except.error e => (Except.ok (ItemResult.failure item.id item.url e), st2)
      | Except.ok t => (Except.ok (ItemResult.success item.id item.url t), st2)

/-- Promise.all over the items, keeping payload order.  The cooperative
single-threaded scheduling is modelled by settling the items in order; a
rejected item rejects the aggregate. -/
def runParallelItems (w : World) (st : ServerState) :
    List SessionSpec → Except String (List ItemResult) × ServerState
  | [] => (Except.ok [], st)
  | item :: rest =>
    match runParallelItem w st item with
    | (Except.error e, st1) => (Except.error e, st1)
    | (Except.ok r, st1) =>
      match runParallelItems w st1 rest with
      | (Except.ok rs, st2) => (Except.ok (r :: rs), st2)
      | (Except.error e, st2) => (Except.error e, st2)

/-- Rendering of one bulk item result (abstracts JSON.stringify). -/
def renderItemResult : ItemResult → String
  | ItemResult.success id url content =>
    "id: " ++ id ++ ", url: " ++ url ++ ", content: " ++ content
  | ItemResult.failure id url errMsg =>
    "id: " ++ id ++ ", url: " ++ url ++ ", error: " ++ errMsg

/-- Rendering of the bulk result array (abstracts JSON.stringify). -/
def renderResults (rs : List ItemResult) : String :=
  String.intercalate "\n" (rs.map renderItemResult)

/-- The puppeteer_parallel_sessions case: run every item, wrap the rendered
array in a success envelope; an aggregate rejection is caught by the outer
try and flagged as an error envelope (state mutated so far persists). -/
def caseParallel (w : World) (args : ToolArgs) (st : ServerState) : ToolOutcome :=
  match runParallelItems w st args.sessions with
  | (Except.ok results, st') =>
    (Except.ok (textResult ("Parallel sessions results:\n" ++ renderResults results) false), st')
  | (Except.error e, st') =>
    (Except.ok (textResult ("Failed to execute parallel sessions: " ++ e) true), st')

/-- The url the notion_read_page case works on: args.pageUrl with the JS
truthiness fallback to the configured default (the empty string also falls
back). -/
def notionPageUrlOf (w : World) (args : ToolArgs) : String :=
  match args.pageUrl with
  | some u => if u = "" then w.envNotionPageUrl else u
  | none => w.envNotionPageUrl

/-- The notion_read_page case: default url fallback, page-id extraction,
block listing; try/catch wrapped, including the extraction failure. -/
def caseNotionReadPage (w : World) (args : ToolArgs) (st : ServerState) : ToolOutcome :=
  match extractNotionPageId (notionPageUrlOf w args) with
  | Except.error e => (Except.ok (textResult ("Failed to read page: " ++ e) true), st)
  | Except.ok pid =>
    match w.blocksList pid with
    | Except.error e => (Except.ok (textResult ("Failed to read page: " ++ e) true), st)
    | Except.ok json => (Except.ok (textResult json false), st)

/-- The notion_update_page case: append a paragraph block, try/catch wrapped. -/
def caseNotionUpdatePage (w : World) (args : ToolArgs) (st : ServerState) : ToolOutcome :=
  match w.blocksAppend args.pageId args.content with
  | Except.error e => (Except.ok (textResult ("Failed to update page: " ++ e) true), st)
  | Except.ok _ => (Except.ok (textResult "Page updated successfully" false), st)

/-- The notion_append_content case: append a paragraph block, try/catch
wrapped. -/
def caseNotionAppendContent (w : World) (args : ToolArgs) (st : ServerState) : ToolOutcome :=
  match w.blocksAppend args.pageId args.content with
  | Except.error e => (Except.ok (textResult ("Failed to append content: " ++ e) true), st)
  | Except.ok _ => (Except.ok (textResult "Content appended successfully" false), st)

/-- The notion_read_comments case, try/catch wrapped. -/
def caseNotionReadComments (w : World) (args : ToolArgs) (st : ServerState) : ToolOutcome :=
  match w.commentsList args.pageId with
  | Except.error e => (Except.ok (textResult ("Failed to read comments: " ++ e) true), st)
  | Except.ok json => (Except.ok (textResult json false), st)

/-- The notion_add_comment case, try/catch wrapped. -/
def caseNotionAddComment (w : World) (args : ToolArgs) (st : ServerState) : ToolOutcome :=
  match w.commentsCreate args.pageId args.comment with
  | Except.error e => (Except.ok (textResult ("Failed to add comment: " ++ e) true), st)
  | Except.ok _ => (Except.ok (textResult "Comment added successfully" false), st)

/-- The database the notion_add_to_database case writes to: args.databaseId
with the JS truthiness fallback to the configured default. -/
def notionDatabaseIdOf (w : World) (args : ToolArgs) : String :=
  match args.databaseId with
  | some d => if d = "" then w.envNotionDatabaseId else d
  | none => w.envNotionDatabaseId

/-- The notion_add_to_database case: default database fallback,
title/tags/content shaped into the creation call (the extra property-map merge
is folded into the provider call), try/catch wrapped. -/
def caseNotionAddToDatabase (w : World) (args : ToolArgs) (st : ServerState) : ToolOutcome :=
  match w.pagesCreate (notionDatabaseIdOf w args) args.title args.tags args.content with
  | Except.error e => (Except.ok (textResult ("Failed to create database entry: " ++ e) true), st)
  | Except.ok respId =>
    (Except.ok
      (textResult ("Created database entry: https://notion.so/" ++ respId.replace "-" "") false),
     st)

/-- The default switch case: a failure-flagged envelope naming the unknown
tool. -/
def defaultCase (name : String) (st : ServerState) : ToolOutcome :=
  (Except.ok (textResult ("Unknown tool: " ++ name) true), st)

/-- The switch over the tool name (JS switch over string tags, top to
bottom). -/
def handleSwitch (w : World) (name : String) (args : ToolArgs) (st : ServerState) : ToolOutcome :=
  if name = "puppeteer_create_session" then caseCreateSession w args st
  else if name = "puppeteer_navigate" then caseNavigate w args st
  else if name = "puppeteer_screenshot" then caseScreenshot w args st
  else if name = "puppeteer_click" then caseClick w args st
  else if name = "puppeteer_fill" then caseFill w args st
  else if name = "puppeteer_evaluate" then caseEvaluate w args st
  else if name = "puppeteer_get_json" then caseGetJson w args st
  else if name = "puppeteer_get_content" then caseGetContent w args st
  else if name = "puppeteer_parallel_sessions" then caseParallel w args st
  else if name = "notion_read_page" then caseNotionReadPage w args st
  else if name = "notion_update_page" then caseNotionUpdatePage w args st
  else if name = "notion_append_content" then caseNotionAppendContent w args st
  else if name = "notion_read_comments" then caseNotionReadComments w args st
  else if name = "notion_add_comment" then caseNotionAddComment w args st
  else if name = "notion_add_to_database" then caseNotionAddToDatabase w args st
  else defaultCase name st

/-- The tool names the switch handles with a specific (non-default) case, in
switch order. -/
def dispatchedToolNames : List String :=
  [ "puppeteer_create_session", "puppeteer_navigate", "puppeteer_screenshot",
    "puppeteer_click", "puppeteer_fill", "puppeteer_evaluate", "puppeteer_get_json",
    "puppeteer_get_content", "puppeteer_parallel_sessions", "notion_read_page",
    "notion_update_page", "notion_append_content", "notion_read_comments",
    "notion_add_comment", "notion_add_to_database" ]

/-- handleToolCall: unless the call is the bulk tool, resolve the default
session — reuse the registered pair, otherwise create one (a creation failure
is thrown out of the handler) — then run the switch. -/
def handleToolCall (w : World) (name : String) (args : ToolArgs) (st : ServerState) :
    ToolOutcome :=
  if name = "puppeteer_parallel_sessions" then handleSwitch w name args st
  else
    match mapGet st.browsers args.sessionId with
    | some _ => handleSwitch w name args st
    | none =>
      match createNewBrowserSession w args.sessionId st with
      | (Except.error e, st') => (Except.error e, st')
      | (Except.ok _, st') => handleSwitch w name args st'

/-- The fixed console-log resource descriptor. -/
def consoleLogDescriptor : ResourceDescriptor :=
  { uri := "console://logs", mimeType := "text/plain", name := "Browser console logs" }

/-- The descriptor derived from one stored screenshot name. -/
def screenshotDescriptor (n : String) : ResourceDescriptor :=
  { uri := "screenshot://" ++ n, mimeType := "image/png", name := "Screenshot: " ++ n }

/-- The resource listing: the fixed console descriptor first, then one
descriptor per stored screenshot name in the insertion order of the map. -/
def listResources (st : ServerState) : List ResourceDescriptor :=
  consoleLogDescriptor :: st.screenshots.map (fun p => screenshotDescriptor p.1)

/-- The resource read handler: the console log joined with newlines, a stored
screenshot blob looked up under split(sep)[1] of the uri, and a thrown
not-found error for everything else. -/
def readResource (st : ServerState) (uri : String) : Except String ResourceContent :=
  if uri = "console://logs" then
    Except.ok (ResourceContent.text uri "text/plain" (String.intercalate "\n" st.consoleLogs))
  else if strStartsWith "screenshot://" uri then
    match mapGet st.screenshots ((jsSplitSecond "://" uri).getD "") with
    | some s => Except.ok (ResourceContent.blob uri "image/png" s)
    | none => Except.error ("Resource not found: " ++ uri)
  else Except.error ("Resource not found: " ++ uri)

/-- The per-item outcome the bulk tool is specified to produce, read off the
oracle: a failure entry carrying the navigation or extraction error message,
otherwise a success entry carrying the extracted body text. -/
def expectedItemResult (w : World) (item : SessionSpec) : ItemResult :=
  match w.goto item.url with
  | Except.error e => ItemResult.failure item.id item.url e
  | Except.ok _ =>
    match w.innerText item.url with
    | Except.error e => ItemResult.failure item.id item.url e
    | Except.ok t => ItemResult.success item.id item.url t

/-- A world in which every external call succeeds. -/
def trivWorld : World where
  connect := fun _ => Except.ok ()
  goto := fun _ => Except.ok ()
  setViewport := fun _ _ => Except.ok ()
  query := fun _ => Except.ok true
  elementShot := fun _ => Except.ok "IMGDATA"
  pageShot := Except.ok "IMGDATA"
  click := fun _ => Except.ok ()
  waitForSelector := fun _ => Except.ok ()
  typeInto := fun _ _ => Except.ok ()
  evalScript := fun _ => Except.ok ("null", [])
  getJson := fun _ => Except.ok "[]"
  getContent := fun _ => Except.ok "[]"
  innerText := fun u => Except.ok ("text of " ++ u)
  blocksList := fun _ => Except.ok "blocks"
  blocksAppend := fun _ _ => Except.ok ()
  commentsList := fun _ => Except.ok "comments"
  commentsCreate := fun _ _ => Except.ok ()
  pagesCreate := fun _ _ _ _ => Except.ok "resp-id"
  envNotionPageUrl := "https://www.notion.so/default-page"
  envNotionDatabaseId := "default-database-id"

/-- A world in which every navigation fails. -/
def wNavFail : World :=
  { trivWorld with goto := fun _ => Except.error "net::ERR_FAILED" }

/-- A world in which setting the viewport fails. -/
def wVpFail : World :=
  { trivWorld with setViewport := fun _ _ => Except.error "Protocol error" }

/-- A world in which the provider cannot be reached. -/
def wDown : World :=
  { trivWorld with connect := fun _ => Except.error "unable to connect" }

/-- A world in which no selector matches any element. -/
def wNoElem : World :=
  { trivWorld with query := fun _ => Except.ok false }

/-- A world in which navigating to bad:// fails and everything else
succeeds. -/
def wPar : World :=
  { trivWorld with goto := fun u => if u = "bad://" then Except.error "invalid URL" else Except.ok () }

/-- The session stored by the first connection of a fresh process. -/
def sess0 : BrowserSession := { connId := 0 }

/-- The pristine module state at process start. -/
def stEmpty : ServerState := {}

/-- A state with one registered session s and one stored screenshot. -/
def stWithS : ServerState :=
  { browsers := [(some "s", sess0)],
    screenshots := [("old", "OLDDATA")],
    connectCount := 1 }

/-- A state whose only screenshot name itself contains the uri separator. -/
def stWeird : ServerState :=
  { screenshots := [("a://b", "PAYLOAD")] }

/-- A state with one stored screenshot under an ordinary name. -/
def stHome : ServerState :=
  { screenshots := [("home", "HOMEDATA")], consoleLogs := ["line1"] }

/-- Arguments addressing session s. -/
def argsS : ToolArgs := { sessionId := some "s" }

/-- Arguments for a navigation of session s. -/
def argsNav : ToolArgs := { sessionId := some "s", url := "https://x" }

/-- Arguments for a screenshot of session s with a selector. -/
def argsShot : ToolArgs := { sessionId := some "s", name := "shot1", selector := some "#nope" }

/-- Arguments for a screenshot with explicit width and defaulted height. -/
def argsShotWide : ToolArgs :=
  { sessionId := some "s", name := "shot2", selector := some "#gone", width := some 1024 }

/-- The bulk payload of the spec example: one good url, one bad one. -/
def argsPar : ToolArgs :=
  { sessions := [{ url := "https://x", id := "a" }, { url := "bad://", id := "b" }] }

theorem mapGet_mapSet [DecidableEq κ] (m : List (κ × β)) (k k' : κ) (v : β) :
    mapGet (mapSet m k v) k' = if k = k' then some v else mapGet m k' := by
  induction m with
  | nil => by_cases h : k = k' <;> simp [mapGet, mapSet, h]
  | cons p rest ih =>
    obtain ⟨pk, pv⟩ := p
    by_cases h1 : pk = k
    · subst h1
      by_cases h2 : pk = k' <;> simp [mapGet, mapSet, h2]
    · by_cases h2 : pk = k'
      · subst h2
        have h3 : k ≠ pk := fun he => h1 he.symm
        simp [mapGet, mapSet, h1, h3]
      · simp [mapGet, mapSet, h1, h2, ih]

theorem mapGet_mapSet_self [DecidableEq κ] (m : List (κ × β)) (k : κ) (v : β) :
    mapGet (mapSet m k v) k = some v := by
  simp [mapGet_mapSet]

theorem mapGet_mapUpdate [DecidableEq κ] (m : List (κ × β)) (sid k : κ) (f : β → β) :
    mapGet (m.map fun p => if p.1 = sid then (p.1, f p.2) else p) k =
      if k = sid then (mapGet m k).map f else mapGet m k := by
  induction m with
  | nil => by_cases h : k = sid <;> simp [mapGet, h]
  | cons p rest ih =>
    obtain ⟨pk, pv⟩ := p
    simp only [List.map_cons]
    by_cases h1 : pk = sid
    · subst h1
      rw [if_pos rfl]
      by_cases h2 : pk = k
      · subst h2; simp [mapGet]
      · have h3 : ¬k = pk := fun he => h2 he.symm
        simp [mapGet, h2, h3, ih]
    · rw [if_neg h1]
      by_cases h2 : pk = k
      · subst h2
        have h4 : ¬pk = sid := h1
        simp [mapGet, h4]
      · simp [mapGet, h2, ih]

theorem mapGet_updatePage (st : ServerState) (sid : Option String)
    (f : BrowserSession → BrowserSession) (k : Option String) :
    mapGet (updatePage st sid f).browsers k =
      if k = sid then (mapGet st.browsers k).map f else mapGet st.browsers k := by
  simp [updatePage, mapGet_mapUpdate]

theorem jsSplitSecond_of_clean (n : String)
    (h : splitFirst "://".toList n.toList = none) :
    jsSplitSecond "://" ("screenshot://" ++ n) = some n := by
  unfold jsSplitSecond
  have h1 : splitFirst "://".toList ("screenshot://" ++ n).toList =
      some ("screenshot".toList, n.toList) := rfl
  rw [h1]
  have h' : splitFirst [':', '/', '/'] n.data = none := h
  simp [h']

theorem screenshot_uri_ne_console (n : String) :
    ("screenshot://" ++ n) ≠ "console://logs" := by
  intro h
  have h3 := congrArg String.toList h
  have h4 : 's' :: ("creenshot://".toList ++ n.toList) = 'c' :: "onsole://logs".toList := h3
  injection h4 with h5 _
  exact absurd h5 (by decide)

theorem caseCreateSession_ok (w : World) (args : ToolArgs) (st : ServerState) :
    ∃ r st', caseCreateSession w args st = (Except.ok r, st') := by
  unfold caseCreateSession
  rcases hc : createNewBrowserSession w args.sessionId st with ⟨res, st2⟩
  rcases res <;> exact ⟨_, _, rfl⟩

theorem caseClick_ok (w : World) (args : ToolArgs) (st : ServerState) :
    ∃ r st', caseClick w args st = (Except.ok r, st') := by
  unfold caseClick
  rcases w.click args.selector <;> exact ⟨_, _, rfl⟩

theorem caseFill_ok (w : World) (args : ToolArgs) (st : ServerState) :
    ∃ r st', caseFill w args st = (Except.ok r, st') := by
  unfold caseFill
  rcases w.waitForSelector args.selector
  · exact ⟨_, _, rfl⟩
  · rcases w.typeInto args.selector args.value <;> exact ⟨_, _, rfl⟩

theorem caseEvaluate_ok (w : World) (args : ToolArgs) (st : ServerState) :
    ∃ r st', caseEvaluate w args st = (Except.ok r, st') := by
  unfold caseEvaluate
  rcases w.evalScript args.script with e | p
  · exact ⟨_, _, rfl⟩
  · rcases p with ⟨res, logs⟩; exact ⟨_, _, rfl⟩

theorem caseGetJson_ok (w : World) (args : ToolArgs) (st : ServerState) :
    ∃ r st', caseGetJson w args st = (Except.ok r, st') := by
  unfold caseGetJson
  rcases w.getJson args.selector <;> exact ⟨_, _, rfl⟩

theorem caseGetContent_ok (w : World) (args : ToolArgs) (st : ServerState) :
    ∃ r st', caseGetContent w args st = (Except.ok r, st') := by
  unfold caseGetContent
  rcases w.getContent args.selector <;> exact ⟨_, _, rfl⟩

theorem caseParallel_ok (w : World) (args : ToolArgs) (st : ServerState) :
    ∃ r st', caseParallel w args st = (Except.ok r, st') := by
  unfold caseParallel
  rcases hr : runParallelItems w st args.sessions with ⟨res, st2⟩
  rcases res <;> exact ⟨_, _, rfl⟩

theorem caseNotionReadPage_ok (w : World) (args : ToolArgs) (st : ServerState) :
    ∃ r st', caseNotionReadPage w args st = (Except.ok r, st') := by
  unfold caseNotionReadPage
  rcases extractNotionPageId (notionPageUrlOf w args) with e | pid
  · exact ⟨_, _, rfl⟩
  · dsimp only
    rcases w.blocksList pid <;> exact ⟨_, _, rfl⟩

theorem caseNotionUpdatePage_ok (w : World) (args : ToolArgs) (st : ServerState) :
    ∃ r st', caseNotionUpdatePage w args st = (Except.ok r, st') := by
  unfold caseNotionUpdatePage
  rcases w.blocksAppend args.pageId args.content <;> exact ⟨_, _, rfl⟩

theorem caseNotionAppendContent_ok (w : World) (args : ToolArgs) (st : ServerState) :
    ∃ r st', caseNotionAppendContent w args st = (Except.ok r, st') := by
  unfold caseNotionAppendContent
  rcases w.blocksAppend args.pageId args.content <;> exact ⟨_, _, rfl⟩

theorem caseNotionReadComments_ok (w : World) (args : ToolArgs) (st : ServerState) :
    ∃ r st', caseNotionReadComments w args st = (Except.ok r, st') := by
  unfold caseNotionReadComments
  rcases w.commentsList args.pageId <;> exact ⟨_, _, rfl⟩

theorem caseNotionAddComment_ok (w : World) (args : ToolArgs) (st : ServerState) :
    ∃ r st', caseNotionAddComment w args st = (Except.ok r, st') := by
  unfold caseNotionAddComment
  rcases w.commentsCreate args.pageId args.comment <;> exact ⟨_, _, rfl⟩

theorem caseNotionAddToDatabase_ok (w : World) (args : ToolArgs) (st : ServerState) :
    ∃ r st', caseNotionAddToDatabase w args st = (Except.ok r, st') := by
  unfold caseNotionAddToDatabase
  rcases w.pagesCreate (notionDatabaseIdOf w args) args.title args.tags args.content <;>
    exact ⟨_, _, rfl⟩

theorem handleSwitch_ok (w : World) (name : String) (args : ToolArgs) (st : ServerState)
    (h1 : name ≠ "puppeteer_navigate") (h2 : name ≠ "puppeteer_screenshot") :
    ∃ r st', handleSwitch w name args st = (Except.ok r, st') := by
  unfold handleSwitch
  rcases eq_or_ne name "puppeteer_create_session" with hn1 | hn1
  · rw [if_pos hn1]; exact caseCreateSession_ok w args st
  · rw [if_neg hn1]
    rcases eq_or_ne name "puppeteer_navigate" with hn2 | hn2
    · rw [if_pos hn2]; exact absurd hn2 h1
    · rw [if_neg hn2]
      rcases eq_or_ne name "puppeteer_screenshot" with hn3 | hn3
      · rw [if_pos hn3]; exact absurd hn3 h2
      · rw [if_neg hn3]
        rcases eq_or_ne name "puppeteer_click" with hn4 | hn4
        · rw [if_pos hn4]; exact caseClick_ok w args st
        · rw [if_neg hn4]
          rcases eq_or_ne name "puppeteer_fill" with hn5 | hn5
          · rw [if_pos hn5]; exact caseFill_ok w args st
          · rw [if_neg hn5]
            rcases eq_or_ne name "puppeteer_evaluate" with hn6 | hn6
            · rw [if_pos hn6]; exact caseEvaluate_ok w args st
            · rw [if_neg hn6]
              rcases eq_or_ne name "puppeteer_get_json" with hn7 | hn7
              · rw [if_pos hn7]; exact caseGetJson_ok w args st
              · rw [if_neg hn7]
                rcases eq_or_ne name "puppeteer_get_content" with hn8 | hn8
                · rw [if_pos hn8]; exact caseGetContent_ok w args st
                · rw [if_neg hn8]
                  rcases eq_or_ne name "puppeteer_parallel_sessions" with hn9 | hn9
                  · rw [if_pos hn9]; exact caseParallel_ok w args st
                  · rw [if_neg hn9]
                    rcases eq_or_ne name "notion_read_page" with hn10 | hn10
                    · rw [if_pos hn10]; exact caseNotionReadPage_ok w args st
                    · rw [if_neg hn10]
                      rcases eq_or_ne name "notion_update_page" with hn11 | hn11
                      · rw [if_pos hn11]; exact caseNotionUpdatePage_ok w args st
                      · rw [if_neg hn11]
                        rcases eq_or_ne name "notion_append_content" with hn12 | hn12
                        · rw [if_pos hn12]; exact caseNotionAppendContent_ok w args st
                        · rw [if_neg hn12]
                          rcases eq_or_ne name "notion_read_comments" with hn13 | hn13
                          · rw [if_pos hn13]; exact caseNotionReadComments_ok w args st
                          · rw [if_neg hn13]
                            rcases eq_or_ne name "notion_add_comment" with hn14 | hn14
                            · rw [if_pos hn14]; exact caseNotionAddComment_ok w args st
                            · rw [if_neg hn14]
                              rcases eq_or_ne name "notion_add_to_database" with hn15 | hn15
                              · rw [if_pos hn15]; exact caseNotionAddToDatabase_ok w args st
                              · rw [if_neg hn15]
                                exact ⟨_, _, rfl⟩

/-- Frame facts between two states: no connection opened, no subscription
installed, and every registered session keeps its connection (page-state
fields such as viewport and url may change). -/
def framePreserved (st st' : ServerState) : Prop :=
  st'.connectCount = st.connectCount ∧ st'.subs = st.subs ∧
  ∀ k, Option.map BrowserSession.connId (mapGet st'.browsers k) =
    Option.map BrowserSession.connId (mapGet st.browsers k)

theorem framePreserved_refl (st : ServerState) : framePreserved st st :=
  ⟨rfl, rfl, fun _ => rfl⟩

theorem framePreserved_updatePage (st : ServerState) (sid : Option String)
    (f : BrowserSession → BrowserSession) (hf : ∀ s, (f s).connId = s.connId) :
    framePreserved st (updatePage st sid f) := by
  refine ⟨rfl, rfl, fun k => ?_⟩
  rw [mapGet_updatePage]
  by_cases h : k = sid
  · rw [if_pos h]
    cases mapGet st.browsers k <;> simp [hf]
  · rw [if_neg h]

theorem caseNavigate_frame (w : World) (args : ToolArgs) (st : ServerState) :
    framePreserved st (caseNavigate w args st).2 := by
  unfold caseNavigate
  rcases w.goto args.url
  · exact framePreserved_refl st
  · exact framePreserved_updatePage st args.sessionId _ (fun s => rfl)

theorem caseScreenshot_frame (w : World) (args : ToolArgs) (st : ServerState) :
    framePreserved st (caseScreenshot w args st).2 := by
  unfold caseScreenshot
  have hvp : framePreserved st (shotViewportState args st) :=
    framePreserved_updatePage st args.sessionId _ (fun s => rfl)
  rcases w.setViewport (shotWidth args) (shotHeight args)
  · exact framePreserved_refl st
  · dsimp only
    rcases screenshotShot w args with e | data
    · exact hvp
    · rcases data with _ | data
      · exact hvp
      · dsimp only
        by_cases hd : data = ""
        · rw [if_pos hd]; exact hvp
        · rw [if_neg hd]; exact ⟨hvp.1, hvp.2.1, hvp.2.2⟩

theorem caseClick_frame (w : World) (args : ToolArgs) (st : ServerState) :
    framePreserved st (caseClick w args st).2 := by
  unfold caseClick
  rcases w.click args.selector <;> exact framePreserved_refl st

theorem caseFill_frame (w : World) (args : ToolArgs) (st : ServerState) :
    framePreserved st (caseFill w args st).2 := by
  unfold caseFill
  rcases w.waitForSelector args.selector
  · exact framePreserved_refl st
  · dsimp only
    rcases w.typeInto args.selector args.value <;> exact framePreserved_refl st

theorem caseEvaluate_frame (w : World) (args : ToolArgs) (st : ServerState) :
    framePreserved st (caseEvaluate w args st).2 := by
  unfold caseEvaluate
  rcases w.evalScript args.script with e | p
  · exact framePreserved_refl st
  · rcases p with ⟨res, logs⟩; exact framePreserved_refl st

theorem caseGetJson_frame (w : World) (args : ToolArgs) (st : ServerState) :
    framePreserved st (caseGetJson w args st).2 := by
  unfold caseGetJson
  rcases w.getJson args.selector <;> exact framePreserved_refl st

theorem caseGetContent_frame (w : World) (args : ToolArgs) (st : ServerState) :
    framePreserved st (caseGetContent w args st).2 := by
  unfold caseGetContent
  rcases w.getContent args.selector <;> exact framePreserved_refl st

theorem caseNotionReadPage_frame (w : World) (args : ToolArgs) (st : ServerState) :
    framePreserved st (caseNotionReadPage w args st).2 := by
  unfold caseNotionReadPage
  rcases extractNotionPageId (notionPageUrlOf w args) with e | pid
  · exact framePreserved_refl st
  · dsimp only
    rcases w.blocksList pid <;> exact framePreserved_refl st

theorem caseNotionUpdatePage_frame (w : World) (args : ToolArgs) (st : ServerState) :
    framePreserved st (caseNotionUpdatePage w args st).2 := by
  unfold caseNotionUpdatePage
  rcases w.blocksAppend args.pageId args.content <;> exact framePreserved_refl st

theorem caseNotionAppendContent_frame (w : World) (args : ToolArgs) (st : ServerState) :
    framePreserved st (caseNotionAppendContent w args st).2 := by
  unfold caseNotionAppendContent
  rcases w.blocksAppend args.pageId args.content <;> exact framePreserved_refl st

theorem caseNotionReadComments_frame (w : World) (args : ToolArgs) (st : ServerState) :
    framePreserved st (caseNotionReadComments w args st).2 := by
  unfold caseNotionReadComments
  rcases w.commentsList args.pageId <;> exact framePreserved_refl st

theorem caseNotionAddComment_frame (w : World) (args : ToolArgs) (st : ServerState) :
    framePreserved st (caseNotionAddComment w args st).2 := by
  unfold caseNotionAddComment
  rcases w.commentsCreate args.pageId args.comment <;> exact framePreserved_refl st

theorem caseNotionAddToDatabase_frame (w : World) (args : ToolArgs) (st : ServerState) :
    framePreserved st (caseNotionAddToDatabase w args st).2 := by
  unfold caseNotionAddToDatabase
  rcases w.pagesCreate (notionDatabaseIdOf w args) args.title args.tags args.content <;>
    exact framePreserved_refl st

theorem handleSwitch_frame (w : World) (name : String) (args : ToolArgs) (st : ServerState)
    (hc : name ≠ "puppeteer_create_session") (hp : name ≠ "puppeteer_parallel_sessions") :
    framePreserved st (handleSwitch w name args st).2 := by
  unfold handleSwitch
  rcases eq_or_ne name "puppeteer_create_session" with hn1 | hn1
  · rw [if_pos hn1]; exact absurd hn1 hc
  · rw [if_neg hn1]
    rcases eq_or_ne name "puppeteer_navigate" with hn2 | hn2
    · rw [if_pos hn2]; exact caseNavigate_frame w args st
    · rw [if_neg hn2]
      rcases eq_or_ne name "puppeteer_screenshot" with hn3 | hn3
      · rw [if_pos hn3]; exact caseScreenshot_frame w args st
      · rw [if_neg hn3]
        rcases eq_or_ne name "puppeteer_click" with hn4 | hn4
        · rw [if_pos hn4]; exact caseClick_frame w args st
        · rw [if_neg hn4]
          rcases eq_or_ne name "puppeteer_fill" with hn5 | hn5
          · rw [if_pos hn5]; exact caseFill_frame w args st
          · rw [if_neg hn5]
            rcases eq_or_ne name "puppeteer_evaluate" with hn6 | hn6
            · rw [if_pos hn6]; exact caseEvaluate_frame w args st
            · rw [if_neg hn6]
              rcases eq_or_ne name "puppeteer_get_json" with hn7 | hn7
              · rw [if_pos hn7]; exact caseGetJson_frame w args st
              · rw [if_neg hn7]
                rcases eq_or_ne name "puppeteer_get_content" with hn8 | hn8
                · rw [if_pos hn8]; exact caseGetContent_frame w args st
                · rw [if_neg hn8]
                  rcases eq_or_ne name "puppeteer_parallel_sessions" with hn9 | hn9
                  · rw [if_pos hn9]; exact absurd hn9 hp
                  · rw [if_neg hn9]
                    rcases eq_or_ne name "notion_read_page" with hn10 | hn10
                    · rw [if_pos hn10]; exact caseNotionReadPage_frame w args st
                    · rw [if_neg hn10]
                      rcases eq_or_ne name "notion_update_page" with hn11 | hn11
                      · rw [if_pos hn11]; exact caseNotionUpdatePage_frame w args st
                      · rw [if_neg hn11]
                        rcases eq_or_ne name "notion_append_content" with hn12 | hn12
                        · rw [if_pos hn12]; exact caseNotionAppendContent_frame w args st
                        · rw [if_neg hn12]
                          rcases eq_or_ne name "notion_read_comments" with hn13 | hn13
                          · rw [if_pos hn13]; exact caseNotionReadComments_frame w args st
                          · rw [if_neg hn13]
                            rcases eq_or_ne name "notion_add_comment" with hn14 | hn14
                            · rw [if_pos hn14]; exact caseNotionAddComment_frame w args st
                            · rw [if_neg hn14]
                              rcases eq_or_ne name "notion_add_to_database" with hn15 | hn15
                              · rw [if_pos hn15]; exact caseNotionAddToDatabase_frame w args st
                              · rw [if_neg hn15]
                                exact framePreserved_refl st
theorem handleSwitch_default (w : World) (name : String) (args : ToolArgs) (st : ServerState)
    (h : name ∉ dispatchedToolNames) :
    handleSwitch w name args st = defaultCase name st := by
  simp only [dispatchedToolNames, List.mem_cons, List.not_mem_nil, or_false, not_or] at h
  obtain ⟨d1, d2, d3, d4, d5, d6, d7, d8, d9, d10, d11, d12, d13, d14, d15⟩ := h
  unfold handleSwitch
  rw [if_neg d1, if_neg d2, if_neg d3, if_neg d4, if_neg d5, if_neg d6, if_neg d7, if_neg d8,
    if_neg d9, if_neg d10, if_neg d11, if_neg d12, if_neg d13, if_neg d14, if_neg d15]

theorem isSome_mapSet [DecidableEq κ] (m : List (κ × β)) (k k' : κ) (v : β)
    (h : (mapGet m k').isSome = true) : (mapGet (mapSet m k v) k').isSome = true := by
  rw [mapGet_mapSet]
  by_cases he : k = k' <;> simp [he, h]

theorem isSome_updatePage (st : ServerState) (sid : Option String)
    (f : BrowserSession → BrowserSession) (k : Option String)
    (h : (mapGet st.browsers k).isSome = true) :
    (mapGet (updatePage st sid f).browsers k).isSome = true := by
  rw [mapGet_updatePage]
  by_cases he : k = sid
  · rw [if_pos he]
    rcases hm : mapGet st.browsers k with _ | v
    · rw [hm] at h; simp at h
    · simp
  · rw [if_neg he]; exact h

theorem runParallelItems_spec (w : World) (hconn : ∀ n, w.connect n = Except.ok ()) :
    ∀ (items : List SessionSpec) (st : ServerState),
      ∃ st', runParallelItems w st items = (Except.ok (items.map (expectedItemResult w)), st') ∧
        st'.connectCount = st.connectCount + items.length ∧
        (∀ k, (mapGet st.browsers k).isSome = true → (mapGet st'.browsers k).isSome = true) ∧
        (∀ item ∈ items, (mapGet st'.browsers (some item.id)).isSome = true) := by
  intro items
  induction items with
  | nil => exact fun st => ⟨st, rfl, by simp, fun k h => h, by simp⟩
  | cons item rest ih =>
    intro st
    have hcr : createNewBrowserSession w (some item.id) st =
        (Except.ok { connId := st.connectCount },
         { st with
             browsers := mapSet st.browsers (some item.id) { connId := st.connectCount },
             subs := st.subs ++ [some item.id],
             connectCount := st.connectCount + 1 }) := by
      unfold createNewBrowserSession
      rw [hconn st.connectCount]
    rcases hg : w.goto item.url with e | u
    · have hitem : runParallelItem w st item =
          (Except.ok (ItemResult.failure item.id item.url e),
           { st with
               browsers := mapSet st.browsers (some item.id) { connId := st.connectCount },
               subs := st.subs ++ [some item.id],
               connectCount := st.connectCount + 1 }) := by
        unfold runParallelItem
        rw [hcr]
        dsimp only
        rw [hg]
      obtain ⟨st', hrun, hcount, hpres, hmem⟩ := ih _
      refine ⟨st', ?_, ?_, ?_, ?_⟩
      · unfold runParallelItems
        rw [hitem]
        dsimp only
        rw [hrun]
        dsimp only [List.map_cons]
        rw [show expectedItemResult w item = ItemResult.failure item.id item.url e by
          unfold expectedItemResult; rw [hg]]
      · rw [hcount]; simp; omega
      · intro k hk
        exact hpres k (isSome_mapSet _ _ _ _ hk)
      · intro it hit
        rcases List.mem_cons.mp hit with he | hm
        · subst he
          refine hpres _ ?_
          simp [mapGet_mapSet_self]
        · exact hmem it hm
    · rcases hi : w.innerText item.url with e | t
      · have hitem : runParallelItem w st item =
            (Except.ok (ItemResult.failure item.id item.url e),
             updatePage
               { st with
                   browsers := mapSet st.browsers (some item.id) { connId := st.connectCount },
                   subs := st.subs ++ [some item.id],
                   connectCount := st.connectCount + 1 }
               (some item.id) (fun s => { s with url := item.url })) := by
          unfold runParallelItem
          rw [hcr]
          dsimp only
          rw [hg]
          dsimp only
          rw [hi]
        obtain ⟨st', hrun, hcount, hpres, hmem⟩ := ih _
        refine ⟨st', ?_, ?_, ?_, ?_⟩
        · unfold runParallelItems
          rw [hitem]
          dsimp only
          rw [hrun]
          dsimp only [List.map_cons]
          rw [show expectedItemResult w item = ItemResult.failure item.id item.url e by
            unfold expectedItemResult; rw [hg, hi]]
        · rw [hcount]; simp [updatePage]; omega
        · intro k hk
          exact hpres k (isSome_updatePage _ _ _ _ (isSome_mapSet _ _ _ _ hk))
        · intro it hit
          rcases List.mem_cons.mp hit with he | hm
          · subst he
            refine hpres _ (isSome_updatePage _ _ _ _ ?_)
            simp [mapGet_mapSet_self]
          · exact hmem it hm
      · have hitem : runParallelItem w st item =
            (Except.ok (ItemResult.success item.id item.url t),
             updatePage
               { st with
                   browsers := mapSet st.browsers (some item.id) { connId := st.connectCount },
                   subs := st.subs ++ [some item.id],
                   connectCount := st.connectCount + 1 }
               (some item.id) (fun s => { s with url := item.url })) := by
          unfold runParallelItem
          rw [hcr]
          dsimp only
          rw [hg]
          dsimp only
          rw [hi]
        obtain ⟨st', hrun, hcount, hpres, hmem⟩ := ih _
        refine ⟨st', ?_, ?_, ?_, ?_⟩
        · unfold runParallelItems
          rw [hitem]
          dsimp only
          rw [hrun]
          dsimp only [List.map_cons]
          rw [show expectedItemResult w item = ItemResult.success item.id item.url t by
            unfold expectedItemResult; rw [hg, hi]]
        · rw [hcount]; simp [updatePage]; omega
        · intro k hk
          exact hpres k (isSome_updatePage _ _ _ _ (isSome_mapSet _ _ _ _ hk))
        · intro it hit
          rcases List.mem_cons.mp hit with he | hm
          · subst he
            refine hpres _ (isSome_updatePage _ _ _ _ ?_)
            simp [mapGet_mapSet_self]
          · exact hmem it hm

/-- C1 (counterexample): the claim says every failure thrown by a
tool-specific action is caught and wrapped, in particular for the navigation
tool and the screenshot viewport step.  In this concrete run a navigation
failure and a viewport-set failure both leave handleToolCall as thrown errors
rather than failure envelopes. -/
theorem c1_counterexample :
    (handleToolCall wNavFail "puppeteer_navigate" argsNav stWithS).1 =
      Except.error "net::ERR_FAILED" ∧
    (handleToolCall wVpFail "puppeteer_screenshot" argsShot stWithS).1 =
      Except.error "Protocol error" := ⟨rfl, rfl⟩

/-- C1 (amended): for every tool other than puppeteer_navigate and
puppeteer_screenshot, once the implicit session resolution has succeeded (or
is skipped, for the bulk tool), the call returns an envelope and never throws;
the navigation and screenshot actions are the two dispatch cases without a
try/catch. -/
theorem c1_amended (w : World) (name : String) (args : ToolArgs) (st : ServerState)
    (h1 : name ≠ "puppeteer_navigate") (h2 : name ≠ "puppeteer_screenshot")
    (h3 : name = "puppeteer_parallel_sessions" ∨
      (mapGet st.browsers args.sessionId).isSome = true ∨
      w.connect st.connectCount = Except.ok ()) :
    ∃ r st', handleToolCall w name args st = (Except.ok r, st') := by
  unfold handleToolCall
  by_cases hp : name = "puppeteer_parallel_sessions"
  · rw [if_pos hp]
    exact handleSwitch_ok w name args st h1 h2
  · rw [if_neg hp]
    rcases hm : mapGet st.browsers args.sessionId with _ | sess
    · rcases h3 with h | h | h
      · exact absurd h hp
      · rw [hm] at h; simp at h
      · dsimp only
        have hcr : createNewBrowserSession w args.sessionId st =
            (Except.ok { connId := st.connectCount },
             { st with
                 browsers := mapSet st.browsers args.sessionId { connId := st.connectCount },
                 subs := st.subs ++ [args.sessionId],
                 connectCount := st.connectCount + 1 }) := by
          unfold createNewBrowserSession
          rw [h]
        rw [hcr]
        exact handleSwitch_ok w name args _ h1 h2
    · dsimp only
      exact handleSwitch_ok w name args st h1 h2

/-- C1 (witness): the amended theorem applied to a click on a registered
session. -/
theorem c1_amended_witness :
    ∃ r st', handleToolCall trivWorld "puppeteer_click" argsS stWithS = (Except.ok r, st') :=
  c1_amended trivWorld "puppeteer_click" argsS stWithS (by decide) (by decide)
    (Or.inr (Or.inl (by decide)))

/-- C2 (counterexample): the claim says exactly one new session is created
for an unregistered sessionId, including for the explicit create-session
tool.  A create-session call with the never-seen id s in fact opens two
connections (one in the implicit default resolution, one in the case body)
and installs two console subscriptions. -/
theorem c2_counterexample :
    mapGet stEmpty.browsers (some "s") = none ∧
    (handleToolCall trivWorld "puppeteer_create_session" argsS stEmpty).2.connectCount = 2 ∧
    (handleToolCall trivWorld "puppeteer_create_session" argsS stEmpty).2.subs =
      [some "s", some "s"] := ⟨rfl, rfl, rfl⟩

/-- C2 (amended): for every tool call other than the bulk tool and the
explicit create-session tool, an unregistered sessionId provisions exactly one
session — one connection opened, one subscription installed, the pair stored
under the sessionId with the fresh connection — and a registered sessionId is
reused with no new connection, keeping the stored connection.  (The explicit
create-session tool always opens a further connection, as the counterexample
shows.) -/
theorem c2_amended (w : World) (name : String) (args : ToolArgs) (st : ServerState)
    (hpar : name ≠ "puppeteer_parallel_sessions") (hcre : name ≠ "puppeteer_create_session")
    (habs : mapGet st.browsers args.sessionId = none)
    (hconn : w.connect st.connectCount = Except.ok ()) :
    ((handleToolCall w name args st).2.connectCount = st.connectCount + 1 ∧
     (handleToolCall w name args st).2.subs = st.subs ++ [args.sessionId] ∧
     ∃ sess', mapGet (handleToolCall w name args st).2.browsers args.sessionId = some sess' ∧
       sess'.connId = st.connectCount) ∧
    ∀ st2 : ServerState, (mapGet st2.browsers args.sessionId).isSome = true →
      ((handleToolCall w name args st2).2.connectCount = st2.connectCount ∧
       (handleToolCall w name args st2).2.subs = st2.subs ∧
       ∃ s s', mapGet st2.browsers args.sessionId = some s ∧
         mapGet (handleToolCall w name args st2).2.browsers args.sessionId = some s' ∧
         s'.connId = s.connId) := by
  constructor
  · unfold handleToolCall
    rw [if_neg hpar, habs]
    dsimp only
    have hcr : createNewBrowserSession w args.sessionId st =
        (Except.ok { connId := st.connectCount },
         { st with
             browsers := mapSet st.browsers args.sessionId { connId := st.connectCount },
             subs := st.subs ++ [args.sessionId],
             connectCount := st.connectCount + 1 }) := by
      unfold createNewBrowserSession
      rw [hconn]
    rw [hcr]
    dsimp only
    obtain ⟨hcount, hsubs, hconnid⟩ :=
      handleSwitch_frame w name args
        { st with
            browsers := mapSet st.browsers args.sessionId { connId := st.connectCount },
            subs := st.subs ++ [args.sessionId],
            connectCount := st.connectCount + 1 } hcre hpar
    refine ⟨hcount, hsubs, ?_⟩
    have hmap := hconnid args.sessionId
    rw [mapGet_mapSet_self] at hmap
    rcases hfin : mapGet (handleSwitch w name args
        { st with
            browsers := mapSet st.browsers args.sessionId { connId := st.connectCount },
            subs := st.subs ++ [args.sessionId],
            connectCount := st.connectCount + 1 }).2.browsers args.sessionId with _ | sess'
    · rw [hfin] at hmap; simp at hmap
    · rw [hfin] at hmap
      simp at hmap
      exact ⟨sess', rfl, hmap⟩
  · intro st2 h2
    unfold handleToolCall
    rw [if_neg hpar]
    rcases hm2 : mapGet st2.browsers args.sessionId with _ | s
    · rw [hm2] at h2; simp at h2
    · dsimp only
      obtain ⟨hcount, hsubs, hconnid⟩ := handleSwitch_frame w name args st2 hcre hpar
      refine ⟨hcount, hsubs, ?_⟩
      have hmap := hconnid args.sessionId
      rw [hm2] at hmap
      rcases hfin : mapGet (handleSwitch w name args st2).2.browsers args.sessionId with _ | s'
      · rw [hfin] at hmap; simp at hmap
      · rw [hfin] at hmap
        simp at hmap
        exact ⟨s, s', rfl, rfl, hmap⟩

/-- C2 (witness): the amended theorem applied to a navigation addressing the
never-seen session s starting from the pristine state. -/
theorem c2_amended_witness :
    ((handleToolCall trivWorld "puppeteer_navigate" argsNav stEmpty).2.connectCount = 1 ∧
     (handleToolCall trivWorld "puppeteer_navigate" argsNav stEmpty).2.subs = [some "s"] ∧
     ∃ sess', mapGet (handleToolCall trivWorld "puppeteer_navigate" argsNav
         stEmpty).2.browsers (some "s") = some sess' ∧ sess'.connId = 0) ∧
    ∀ st2 : ServerState, (mapGet st2.browsers (some "s")).isSome = true →
      ((handleToolCall trivWorld "puppeteer_navigate" argsNav st2).2.connectCount =
         st2.connectCount ∧
       (handleToolCall trivWorld "puppeteer_navigate" argsNav st2).2.subs = st2.subs ∧
       ∃ s s', mapGet st2.browsers (some "s") = some s ∧
         mapGet (handleToolCall trivWorld "puppeteer_navigate" argsNav st2).2.browsers
           (some "s") = some s' ∧ s'.connId = s.connId) :=
  c2_amended trivWorld "puppeteer_navigate" argsNav stEmpty (by decide) (by decide) rfl rfl

/-- C3 (counterexample): the claim says an unknown tool name yields a
failure envelope and never throws, regardless of provider reachability.  With
the provider unreachable and the sessionId unregistered, the call to an
unknown name throws the connection error instead (the implicit session
resolution runs before the switch reaches its default case). -/
theorem c3_counterexample :
    (handleToolCall wDown "totally_unknown_tool" argsS stEmpty).1 =
      Except.error "unable to connect" := rfl

/-- C3 (amended): an unknown tool name returns a failure envelope whose text
references the unknown name and does not throw, provided the implicit session
resolution succeeds — the sessionId is already registered or the provider
connection succeeds; an unreachable provider makes the call throw instead. -/
theorem c3_amended (w : World) (name : String) (args : ToolArgs) (st : ServerState)
    (hnot : name ∉ dispatchedToolNames)
    (hres : (mapGet st.browsers args.sessionId).isSome = true ∨
      w.connect st.connectCount = Except.ok ()) :
    (handleToolCall w name args st).1 =
      Except.ok (textResult ("Unknown tool: " ++ name) true) := by
  have hp : name ≠ "puppeteer_parallel_sessions" := by
    intro he
    subst he
    exact hnot (by decide)
  unfold handleToolCall
  rw [if_neg hp]
  rcases hm : mapGet st.browsers args.sessionId with _ | s
  · rcases hres with h | h
    · rw [hm] at h; simp at h
    · dsimp only
      have hcr : createNewBrowserSession w args.sessionId st =
          (Except.ok { connId := st.connectCount },
           { st with
               browsers := mapSet st.browsers args.sessionId { connId := st.connectCount },
               subs := st.subs ++ [args.sessionId],
               connectCount := st.connectCount + 1 }) := by
        unfold createNewBrowserSession
        rw [h]
      rw [hcr]
      dsimp only
      rw [handleSwitch_default w name args _ hnot]
      rfl
  · dsimp only
    rw [handleSwitch_default w name args st hnot]
    rfl

/-- C3 (witness): the amended theorem applied to an unknown name with the
provider reachable and the pristine state. -/
theorem c3_amended_witness :
    (handleToolCall trivWorld "some_other_tool" argsS stEmpty).1 =
      Except.ok (textResult ("Unknown tool: " ++ "some_other_tool") true) :=
  c3_amended trivWorld "some_other_tool" argsS stEmpty (by decide) (Or.inr rfl)

/-- C4 (confirmed): when every per-item session creation succeeds, the bulk
parallel-navigation call returns a non-error envelope rendering exactly one
result per {url, id} pair — a success entry carrying the extracted text or a
failure entry carrying that item's error message, as characterized by
expectedItemResult — settles every item (the rendered list covers the whole
payload), creates one new session per pair, and registers every item id; a
single item's navigation or extraction failure does not abort the others or
flag the envelope. -/
theorem c4_parallel (w : World) (args : ToolArgs) (st : ServerState)
    (hconn : ∀ n, w.connect n = Except.ok ()) :
    ∃ st',
      handleToolCall w "puppeteer_parallel_sessions" args st =
        (Except.ok (textResult ("Parallel sessions results:\n" ++
          renderResults (args.sessions.map (expectedItemResult w))) false), st') ∧
      (args.sessions.map (expectedItemResult w)).length = args.sessions.length ∧
      st'.connectCount = st.connectCount + args.sessions.length ∧
      ∀ item ∈ args.sessions, (mapGet st'.browsers (some item.id)).isSome = true := by
  obtain ⟨st', hrun, hcount, _, hmem⟩ := runParallelItems_spec w hconn args.sessions st
  refine ⟨st', ?_, by simp, hcount, hmem⟩
  unfold handleToolCall
  rw [if_pos rfl]
  unfold handleSwitch
  rw [if_neg (by decide), if_neg (by decide), if_neg (by decide), if_neg (by decide),
    if_neg (by decide), if_neg (by decide), if_neg (by decide), if_neg (by decide),
    if_pos rfl]
  unfold caseParallel
  rw [hrun]

/-- C4 (witness): the theorem applied to the spec example payload — one good
url and one failing url — in a world where only bad:// fails to navigate. -/
theorem c4_parallel_witness :
    ∃ st',
      handleToolCall wPar "puppeteer_parallel_sessions" argsPar stEmpty =
        (Except.ok (textResult ("Parallel sessions results:\n" ++
          renderResults (argsPar.sessions.map (expectedItemResult wPar))) false), st') ∧
      (argsPar.sessions.map (expectedItemResult wPar)).length = argsPar.sessions.length ∧
      st'.connectCount = stEmpty.connectCount + argsPar.sessions.length ∧
      ∀ item ∈ argsPar.sessions, (mapGet st'.browsers (some item.id)).isSome = true :=
  c4_parallel wPar argsPar stEmpty (fun _ => rfl)

theorem caseScreenshot_notFound (w : World) (args : ToolArgs) (stX : ServerState) (sel : String)
    (hsel : args.selector = some sel)
    (hvp : w.setViewport (shotWidth args) (shotHeight args) = Except.ok ())
    (hq : w.query sel = Except.ok false) :
    caseScreenshot w args stX =
      (Except.ok (textResult ("Element not found: " ++ sel) true),
       shotViewportState args stX) := by
  have hshot : screenshotShot w args = Except.ok none := by
    unfold screenshotShot
    rw [hsel]
    dsimp only
    rw [hq]
  have hfail : shotFailText args = "Element not found: " ++ sel := by
    unfold shotFailText
    rw [hsel]
  unfold caseScreenshot
  rw [hvp]
  dsimp only
  rw [hshot]
  dsimp only
  rw [hfail]

theorem handleToolCall_screenshot_notFound (w : World) (args : ToolArgs) (st : ServerState)
    (sel : String) (hsel : args.selector = some sel)
    (hres : (mapGet st.browsers args.sessionId).isSome = true ∨
      w.connect st.connectCount = Except.ok ())
    (hvp : w.setViewport (shotWidth args) (shotHeight args) = Except.ok ())
    (hq : w.query sel = Except.ok false) :
    (mapGet st.browsers args.sessionId).isSome = true ∧
      handleToolCall w "puppeteer_screenshot" args st =
        (Except.ok (textResult ("Element not found: " ++ sel) true),
         shotViewportState args st) ∨
    mapGet st.browsers args.sessionId = none ∧
      handleToolCall w "puppeteer_screenshot" args st =
        (Except.ok (textResult ("Element not found: " ++ sel) true),
         shotViewportState args
           { st with
               browsers := mapSet st.browsers args.sessionId { connId := st.connectCount },
               subs := st.subs ++ [args.sessionId],
               connectCount := st.connectCount + 1 }) := by
  unfold handleToolCall
  rw [if_neg (by decide)]
  rcases hm : mapGet st.browsers args.sessionId with _ | sess
  · rcases hres with h | h
    · rw [hm] at h; simp at h
    · refine Or.inr ⟨rfl, ?_⟩
      dsimp only
      have hcr : createNewBrowserSession w args.sessionId st =
          (Except.ok { connId := st.connectCount },
           { st with
               browsers := mapSet st.browsers args.sessionId { connId := st.connectCount },
               subs := st.subs ++ [args.sessionId],
               connectCount := st.connectCount + 1 }) := by
        unfold createNewBrowserSession
        rw [h]
      rw [hcr]
      dsimp only
      unfold handleSwitch
      rw [if_neg (by decide), if_neg (by decide), if_pos rfl]
      exact caseScreenshot_notFound w args _ sel hsel hvp hq
  · refine Or.inl ⟨rfl, ?_⟩
    dsimp only
    unfold handleSwitch
    rw [if_neg (by decide), if_neg (by decide), if_pos rfl]
    exact caseScreenshot_notFound w args st sel hsel hvp hq

/-- C5 (confirmed): a screenshot call whose selector matches no element
returns a failure envelope with the not-found message naming the selector —
it does not throw — and leaves the screenshot map and the console log exactly
as they were. -/
theorem c5_screenshot_not_found (w : World) (args : ToolArgs) (st : ServerState) (sel : String)
    (hsel : args.selector = some sel)
    (hres : (mapGet st.browsers args.sessionId).isSome = true ∨
      w.connect st.connectCount = Except.ok ())
    (hvp : w.setViewport (shotWidth args) (shotHeight args) = Except.ok ())
    (hq : w.query sel = Except.ok false) :
    (handleToolCall w "puppeteer_screenshot" args st).1 =
      Except.ok (textResult ("Element not found: " ++ sel) true) ∧
    (handleToolCall w "puppeteer_screenshot" args st).2.screenshots = st.screenshots ∧
    (handleToolCall w "puppeteer_screenshot" args st).2.consoleLogs = st.consoleLogs := by
  rcases handleToolCall_screenshot_notFound w args st sel hsel hres hvp hq with
    ⟨_, he⟩ | ⟨_, he⟩ <;> rw [he] <;> exact ⟨rfl, rfl, rfl⟩

/-- C5 (witness): the theorem applied to a selector matching nothing on a
registered session holding one stored screenshot. -/
theorem c5_witness :
    (handleToolCall wNoElem "puppeteer_screenshot" argsShot stWithS).1 =
      Except.ok (textResult ("Element not found: " ++ "#nope") true) ∧
    (handleToolCall wNoElem "puppeteer_screenshot" argsShot stWithS).2.screenshots =
      stWithS.screenshots ∧
    (handleToolCall wNoElem "puppeteer_screenshot" argsShot stWithS).2.consoleLogs =
      stWithS.consoleLogs :=
  c5_screenshot_not_found wNoElem argsShot stWithS "#nope" rfl (Or.inl (by decide)) rfl rfl

/-- C10 (confirmed): the screenshot case sets the page viewport to the
requested dimensions (defaulting to 800x600) before attempting the capture,
so a call failing with the selector-not-found envelope still leaves the
addressed session's viewport changed to those dimensions while the screenshot
map and console log stay untouched. -/
theorem c10_viewport_changed (w : World) (args : ToolArgs) (st : ServerState) (sel : String)
    (hsel : args.selector = some sel)
    (hres : (mapGet st.browsers args.sessionId).isSome = true ∨
      w.connect st.connectCount = Except.ok ())
    (hvp : w.setViewport (shotWidth args) (shotHeight args) = Except.ok ())
    (hq : w.query sel = Except.ok false) :
    (handleToolCall w "puppeteer_screenshot" args st).1 =
      Except.ok (textResult ("Element not found: " ++ sel) true) ∧
    Option.map BrowserSession.viewport
      (mapGet (handleToolCall w "puppeteer_screenshot" args st).2.browsers args.sessionId) =
      some (some (shotWidth args, shotHeight args)) ∧
    (handleToolCall w "puppeteer_screenshot" args st).2.screenshots = st.screenshots ∧
    (handleToolCall w "puppeteer_screenshot" args st).2.consoleLogs = st.consoleLogs := by
  rcases handleToolCall_screenshot_notFound w args st sel hsel hres hvp hq with
    ⟨hsome, he⟩ | ⟨hnone, he⟩
  · rw [he]
    refine ⟨rfl, ?_, rfl, rfl⟩
    unfold shotViewportState
    rw [mapGet_updatePage, if_pos rfl]
    rcases hm : mapGet st.browsers args.sessionId with _ | sess
    · rw [hm] at hsome; simp at hsome
    · rfl
  · rw [he]
    refine ⟨rfl, ?_, rfl, rfl⟩
    unfold shotViewportState
    rw [mapGet_updatePage, if_pos rfl]
    dsimp only
    rw [mapGet_mapSet_self]
    rfl

/-- C10 (witness): the theorem applied to a 1024-wide screenshot request with
the height defaulted, whose selector matches nothing. -/
theorem c10_witness :
    (handleToolCall wNoElem "puppeteer_screenshot" argsShotWide stWithS).1 =
      Except.ok (textResult ("Element not found: " ++ "#gone") true) ∧
    Option.map BrowserSession.viewport
      (mapGet (handleToolCall wNoElem "puppeteer_screenshot" argsShotWide stWithS).2.browsers
        argsShotWide.sessionId) =
      some (some (shotWidth argsShotWide, shotHeight argsShotWide)) ∧
    (handleToolCall wNoElem "puppeteer_screenshot" argsShotWide stWithS).2.screenshots =
      stWithS.screenshots ∧
    (handleToolCall wNoElem "puppeteer_screenshot" argsShotWide stWithS).2.consoleLogs =
      stWithS.consoleLogs :=
  c10_viewport_changed wNoElem argsShotWide stWithS "#gone" rfl (Or.inl (by decide)) rfl rfl

/-- C6 (counterexample): the claim says reading a screenshot URI whose name
is stored returns the stored payload.  The stored name a://b itself contains
the separator, so split(sep)[1] computes the key a and the read throws
not-found even though the name is stored. -/
theorem c6_counterexample :
    mapGet stWeird.screenshots "a://b" = some "PAYLOAD" ∧
    readResource stWeird "screenshot://a://b" =
      Except.error "Resource not found: screenshot://a://b" := ⟨rfl, rfl⟩

/-- C6 (amended): reading the console-log URI returns the log joined with
newlines; reading a screenshot URI whose stored name contains no internal
separator returns the stored payload (for names containing the separator the
key looked up is only the segment before it, so such names are not
retrievable); any URI that is neither the console URI nor screenshot-prefixed,
and any screenshot URI whose computed key is not stored, throws a thrown
not-found error. -/
theorem c6_amended (st : ServerState) :
    readResource st "console://logs" =
      Except.ok (ResourceContent.text "console://logs" "text/plain"
        (String.intercalate "\n" st.consoleLogs)) ∧
    (∀ n blob : String, splitFirst "://".toList n.toList = none →
      mapGet st.screenshots n = some blob →
      readResource st ("screenshot://" ++ n) =
        Except.ok (ResourceContent.blob ("screenshot://" ++ n) "image/png" blob)) ∧
    (∀ uri : String, uri ≠ "console://logs" → strStartsWith "screenshot://" uri = false →
      readResource st uri = Except.error ("Resource not found: " ++ uri)) ∧
    (∀ uri : String, strStartsWith "screenshot://" uri = true → uri ≠ "console://logs" →
      mapGet st.screenshots ((jsSplitSecond "://" uri).getD "") = none →
      readResource st uri = Except.error ("Resource not found: " ++ uri)) := by
  refine ⟨?_, ?_, ?_, ?_⟩
  · unfold readResource
    rw [if_pos rfl]
  · intro n blob h1 h2
    unfold readResource
    rw [if_neg (screenshot_uri_ne_console n)]
    rw [if_pos (show strStartsWith "screenshot://" ("screenshot://" ++ n) = true from rfl)]
    rw [jsSplitSecond_of_clean n h1]
    dsimp only [Option.getD]
    rw [h2]
  · intro uri hu hs
    unfold readResource
    rw [if_neg hu, if_neg (by simp [hs])]
  · intro uri hsw hne hmiss
    unfold readResource
    rw [if_neg hne, if_pos hsw, hmiss]

/-- C6 (witness): the amended theorem applied to a state holding the
screenshot home and one console line, at all four kinds of URI. -/
theorem c6_amended_witness :
    readResource stHome "console://logs" =
      Except.ok (ResourceContent.text "console://logs" "text/plain"
        (String.intercalate "\n" stHome.consoleLogs)) ∧
    readResource stHome ("screenshot://" ++ "home") =
      Except.ok (ResourceContent.blob ("screenshot://" ++ "home") "image/png" "HOMEDATA") ∧
    readResource stHome "nope://x" = Except.error ("Resource not found: " ++ "nope://x") ∧
    readResource stHome "screenshot://missing" =
      Except.error ("Resource not found: " ++ "screenshot://missing") :=
  ⟨(c6_amended stHome).1,
   (c6_amended stHome).2.1 "home" "HOMEDATA" rfl rfl,
   (c6_amended stHome).2.2.1 "nope://x" (by decide) rfl,
   (c6_amended stHome).2.2.2 "screenshot://missing" rfl (by decide) rfl⟩

/-- C7 (confirmed): the resource listing is exactly the fixed console-log
descriptor followed by one descriptor per stored screenshot name in the
insertion order of the backing map, hence has length one plus the number of
distinct stored names; it is recomputed from the map contents at each call. -/
theorem c7_list_resources (st : ServerState) (h : (st.screenshots.map Prod.fst).Nodup) :
    (listResources st).length = 1 + (st.screenshots.map Prod.fst).toFinset.card ∧
    listResources st =
      consoleLogDescriptor :: st.screenshots.map (fun p => screenshotDescriptor p.1) := by
  refine ⟨?_, rfl⟩
  unfold listResources
  rw [List.length_cons, List.toFinset_card_of_nodup h]
  simp [Nat.add_comm]

/-- C7 (witness): the theorem applied to a state with one stored
screenshot. -/
theorem c7_witness :
    (stWithS.screenshots.map Prod.fst).Nodup ∧
    ((listResources stWithS).length = 1 + (stWithS.screenshots.map Prod.fst).toFinset.card ∧
     listResources stWithS =
       consoleLogDescriptor :: stWithS.screenshots.map (fun p => screenshotDescriptor p.1)) :=
  ⟨by decide, c7_list_resources stWithS (by decide)⟩

theorem processEvents_logs (evs : List ConsoleEvent) : ∀ st : ServerState,
    (processEvents st evs).consoleLogs = st.consoleLogs ++ evs.map formatLogEntry ∧
    (processEvents st evs).notifications =
      st.notifications ++ evs.map (fun ev => Notification.consoleMessage (formatLogEntry ev)) := by
  induction evs with
  | nil => intro st; simp [processEvents]
  | cons ev rest ih =>
    intro st
    have h1 : processEvents st (ev :: rest) = processEvents (deliverConsoleEvent st ev) rest := rfl
    rw [h1]
    obtain ⟨hl, hn⟩ := ih (deliverConsoleEvent st ev)
    constructor
    · rw [hl]; simp [deliverConsoleEvent]
    · rw [hn]; simp [deliverConsoleEvent]

/-- C8 (confirmed): delivering N console events appends exactly one formatted
line [Session id][level] text per event in capture order, each carrying the
identifier captured by its subscription, emits one console-message
notification per event with the same line, and the console-log resource then
reads as those lines joined with newlines. -/
theorem c8_console_pipeline (st : ServerState) (evs : List ConsoleEvent) :
    (processEvents st evs).consoleLogs = st.consoleLogs ++ evs.map formatLogEntry ∧
    (processEvents st evs).notifications =
      st.notifications ++ evs.map (fun ev => Notification.consoleMessage (formatLogEntry ev)) ∧
    (processEvents st evs).consoleLogs.length = st.consoleLogs.length + evs.length ∧
    readResource (processEvents st evs) "console://logs" =
      Except.ok (ResourceContent.text "console://logs" "text/plain"
        (String.intercalate "\n" (st.consoleLogs ++ evs.map formatLogEntry))) := by
  obtain ⟨hl, hn⟩ := processEvents_logs evs st
  refine ⟨hl, hn, by rw [hl]; simp, ?_⟩
  unfold readResource
  rw [if_pos rfl, hl]

/-- C9 (counterexample): the claim says the specifically dispatched tool
names are exactly the declared schema names.  puppeteer_get_json — the
structured-data extraction tool — has a dispatch case but is missing from the
declared TOOLS list. -/
theorem c9_counterexample :
    "puppeteer_get_json" ∈ dispatchedToolNames ∧
    "puppeteer_get_json" ∉ TOOLS.map Tool.name := by decide

/-- C9 (amended): the set of specifically dispatched tool names is exactly
the declared schema names plus puppeteer_get_json, which the schema list
omits. -/
theorem c9_amended :
    dispatchedToolNames.Perm (TOOLS.map Tool.name ++ ["puppeteer_get_json"]) := by decide
